import Mathlib

/-!
# FitTracker — verification of the goal-calculation and AI-fallback logic

Shallow embedding of the first-party logic of the FitTracker web app:

* `src/lib/utils.ts` — `calculateNutrientGoals` (BMR / TDEE / macro goals);
* `src/pages/Dashboard.tsx` — the Profile page's `handleSubmit` calorie-goal
  computation, and the food/exercise daily totals;
* `src/lib/gemini.ts` — `analyzeFoodDescription` / `analyzeExerciseDescription`
  fallback behaviour around the external AI call.

JavaScript numbers are modelled as rationals (`ℚ`); all decimal literals in
the source (6.25, 1.55, 0.9, …) are exactly the corresponding rationals.
`Math.round` is modelled as `jsRound` (floor of x + 1/2, JavaScript's
round-half-towards-positive-infinity). `undefined`/`null` fields of the
`Partial<User>` argument are modelled as `Option.none`; the JS falsiness
checks `!x` translate to "`none`, or `some 0` for numbers, or `some ""` for
strings" (`NaN`, the one further falsy number, has no rational counterpart).
-/

/-- JavaScript `Math.round`: round half towards +∞, i.e. `⌊x + 1/2⌋`. -/
def jsRound (q : ℚ) : ℤ := ⌊q + 1/2⌋

/-- JS falsiness of a possibly-missing number (`undefined`/`null` ↦ `none`):
`!x` holds for `undefined`, `null` and `0`. -/
def numFalsy : Option ℚ → Bool
  | none => true
  | some q => q == 0

/-- JS falsiness of a possibly-missing string: `!s` holds for `undefined`,
`null` and the empty string. -/
def strFalsy : Option String → Bool
  | none => true
  | some s => s == ""

/-- The `Partial<User>` profile fields destructured by `calculateNutrientGoals`
(`src/lib/utils.ts`): every field may be absent. -/
structure UserProfile where
  age : Option ℚ
  gender : Option String
  height : Option ℚ
  weight : Option ℚ
  activity_level : Option String
  fitness_goal : Option String
deriving DecidableEq

/-- Result record of `calculateNutrientGoals`. -/
structure NutrientGoals where
  tdee : ℤ
  proteinGoal : ℤ
  carbsGoal : ℤ
  fatGoal : ℤ
deriving DecidableEq

/-- The activity-multiplier `switch` inside `calculateNutrientGoals`
(`src/lib/utils.ts`): keys `light`, `moderate`, `active`, `very_active`,
default 1.2. Note the key is `active`, not `high`. -/
def utilsActivityMultiplier (al : String) : ℚ :=
  if al = "light" then 1.375
  else if al = "moderate" then 1.55
  else if al = "active" then 1.725
  else if al = "very_active" then 1.9
  else 1.2

/-- The fitness-goal `switch` inside `calculateNutrientGoals`
(`src/lib/utils.ts`): `tdee -= 500` / `tdee += 500` / unchanged. -/
def utilsApplyFitnessGoal (fg : String) (tdee : ℚ) : ℚ :=
  if fg = "lose_weight" then tdee - 500
  else if fg = "gain_weight" || fg = "build_muscle" then tdee + 500
  else tdee

/-- The Mifflin-St Jeor BMR branch of `calculateNutrientGoals`
(`src/lib/utils.ts`): `male` → +5, every other gender → −161. -/
def utilsBMR (gender : String) (age heightInCm weightInKg : ℚ) : ℚ :=
  if gender = "male" then 10 * weightInKg + 6.25 * heightInCm - 5 * age + 5
  else 10 * weightInKg + 6.25 * heightInCm - 5 * age - 161

/-- `calculateNutrientGoals` from `src/lib/utils.ts`, line by line: falsy
guard returning the zero record, Mifflin-St Jeor BMR (`male` vs. otherwise),
activity multiplier, ±500 goal adjustment of TDEE, then macro goals
(protein 2 g/kg, fat 0.9 g/kg, carbs from the remaining calories), each
`Math.round`ed. After the guard every field is known present, so the
defaults of `getD` are never used. -/
def calculateNutrientGoals (u : UserProfile) : NutrientGoals :=
  if numFalsy u.age || strFalsy u.gender || numFalsy u.height || numFalsy u.weight
      || strFalsy u.activity_level || strFalsy u.fitness_goal then
    { tdee := 0, proteinGoal := 0, carbsGoal := 0, fatGoal := 0 }
  else
    let weightInKg := u.weight.getD 0
    let heightInCm := u.height.getD 0
    let bmr := utilsBMR (u.gender.getD "") (u.age.getD 0) heightInCm weightInKg
    let activityMultiplier := utilsActivityMultiplier (u.activity_level.getD "")
    let tdee := utilsApplyFitnessGoal (u.fitness_goal.getD "") (bmr * activityMultiplier)
    let proteinGoal := jsRound (2 * weightInKg)
    let fatGoal := jsRound (0.9 * weightInKg)
    let proteinCalories := proteinGoal * 4
    let fatCalories := fatGoal * 9
    let remainingCalories := tdee - (proteinCalories : ℚ) - (fatCalories : ℚ)
    let carbsGoal := jsRound (remainingCalories / 4)
    { tdee := jsRound tdee, proteinGoal := proteinGoal, carbsGoal := carbsGoal, fatGoal := fatGoal }

/-! ## Profile page `handleSubmit` (`src/pages/Dashboard.tsx`)

The profile-save handler recomputes `daily_calorie_goal` with its own copy of
the arithmetic: BMR has an explicit `female` branch and otherwise stays at its
initialiser `0`; the activity `switch` uses the key `high` (not `active`); the
±500 goal adjustment is applied to the already-rounded TDEE. -/

/-- BMR as computed in `handleSubmit`: `male` → +5, `female` → −161,
any other gender leaves the initial value `0`. -/
def dashboardBMR (gender : String) (age height weight : ℚ) : ℚ :=
  if gender = "male" then 10 * weight + 6.25 * height - 5 * age + 5
  else if gender = "female" then 10 * weight + 6.25 * height - 5 * age - 161
  else 0

/-- The activity-multiplier `switch` in `handleSubmit`: keys `light`,
`moderate`, `high`, `very_active`, default 1.2. Note the key is `high`,
not `active`. -/
def dashboardActivityMultiplier (al : String) : ℚ :=
  if al = "light" then 1.375
  else if al = "moderate" then 1.55
  else if al = "high" then 1.725
  else if al = "very_active" then 1.9
  else 1.2

/-- The fitness-goal `switch` in `handleSubmit`, applied to the integer
`dailyCalorieGoal = Math.round(tdee)`. -/
def dashboardApplyFitnessGoal (fg : String) (cal : ℤ) : ℤ :=
  if fg = "lose_weight" then cal - 500
  else if fg = "gain_weight" || fg = "build_muscle" then cal + 500
  else cal

/-- `updates.daily_calorie_goal` as computed by `handleSubmit`
(`src/pages/Dashboard.tsx`): round the TDEE first, then apply the ±500
fitness-goal adjustment. -/
def dashboardDailyCalorieGoal (gender al fg : String) (age height weight : ℚ) : ℤ :=
  dashboardApplyFitnessGoal fg
    (jsRound (dashboardBMR gender age height weight * dashboardActivityMultiplier al))

/-! ## The §4.1 goal calculator as the spec words it

These definitions are NOT taken from the source: they transcribe the spec's
§4.1 algorithm, to be compared against `calculateNutrientGoals` (refinement
check). The spec's multiplier table maps the level written "active/high" —
i.e. both spellings — to 1.725, and defaults to 1.2 otherwise. The spec
leaves the rounding convention open ("must be fixed and documented"); we fix
it to the JavaScript `Math.round` used by the code, which agrees with
round-half-away-from-zero on the positive values of its examples. -/

/-- Modelled from the spec: §4.1 step 2 activity-multiplier table, with
"active/high" read as both spellings mapping to 1.725. -/
def specActivityMultiplier (al : String) : ℚ :=
  if al = "sedentary" then 1.2
  else if al = "light" then 1.375
  else if al = "moderate" then 1.55
  else if al = "active" || al = "high" then 1.725
  else if al = "very_active" then 1.9
  else 1.2

/-- Modelled from the spec: §4.1 step 4 goal adjustment. -/
def specApplyFitnessGoal (fg : String) (tdee : ℚ) : ℚ :=
  if fg = "lose_weight" then tdee - 500
  else if fg = "gain_weight" || fg = "build_muscle" then tdee + 500
  else tdee

/-- Modelled from the spec: §4.1 steps 1-6 on a complete profile. -/
def specGoalCalculator (gender al fg : String) (age height weight : ℚ) : NutrientGoals :=
  let bmr : ℚ :=
    if gender = "male" then 10 * weight + 6.25 * height - 5 * age + 5
    else 10 * weight + 6.25 * height - 5 * age - 161
  let tdee := specApplyFitnessGoal fg (bmr * specActivityMultiplier al)
  let proteinGoal := jsRound (2 * weight)
  let fatGoal := jsRound (0.9 * weight)
  let remaining := tdee - (proteinGoal * 4 : ℤ) - ((fatGoal * 9 : ℤ) : ℚ)
  { tdee := jsRound tdee, proteinGoal := proteinGoal,
    carbsGoal := jsRound (remaining / 4), fatGoal := fatGoal }

/-! ## AI analysis services (`src/lib/gemini.ts`)

`analyzeFoodDescription` and `analyzeExerciseDescription` wrap an external
model call in `try { … } catch { return fallback }`. Inside the `try` they
regex-extract a JSON object from the response text, `JSON.parse` it, and
throw if required fields fail a `typeof`/`includes` check. The stages that
can fail are modelled by `CallOutcome`; a successfully parsed object is a
record of loosely-typed JSON fields (`JsVal`). The free-text description and
the user weight only flow into the prompt, so they do not appear here; the
`duration` argument does, because the exercise fallback reads it. -/

/-- A JSON field value as far as the validation code inspects it:
missing, a number, a string, or anything else. -/
inductive JsVal where
  | absent
  | num (q : ℚ)
  | str (s : String)
  | other
deriving DecidableEq

/-- `typeof x === 'number'`. -/
def JsVal.isNumber : JsVal → Bool
  | num _ => true
  | _ => false

/-- `list.includes(x)`: true only for a string belonging to the list. -/
def JsVal.isStringIn (v : JsVal) (l : List String) : Bool :=
  match v with
  | str s => l.contains s
  | _ => false

/-- Outcome of the external call plus JSON extraction/parsing: the call
threw, the response text held no `{…}` to extract, `JSON.parse` threw, or a
value was parsed. -/
inductive CallOutcome (α : Type) where
  | callError
  | noJsonMatch
  | parseError
  | parsed (a : α)
deriving DecidableEq

/-- The fields of a parsed food-analysis object. -/
structure RawFood where
  calories : JsVal
  protein : JsVal
  carbs : JsVal
  fat : JsVal
  fiber : JsVal
  sugar : JsVal
  sodium : JsVal
  confidence : JsVal
  breakdown : List String
deriving DecidableEq

/-- The `typeof … === 'number'` validation of the four required food
fields. -/
def foodValid (a : RawFood) : Bool :=
  a.calories.isNumber && a.protein.isNumber && a.carbs.isNumber && a.fat.isNumber

/-- The fallback object returned from the `catch` block of
`analyzeFoodDescription`. -/
def foodFallback : RawFood :=
  { calories := .num 300, protein := .num 15, carbs := .num 30, fat := .num 10,
    fiber := .absent, sugar := .absent, sodium := .absent, confidence := .num 50,
    breakdown := ["Unable to analyze - using estimated values"] }

/-- `analyzeFoodDescription` (`src/lib/gemini.ts`): every failure path —
call error, no extractable JSON, parse error, or failed validation — lands
in the `catch` and yields `foodFallback`; a validated parse is returned
as-is. -/
def analyzeFoodDescription : CallOutcome RawFood → RawFood
  | .parsed a => if foodValid a then a else foodFallback
  | _ => foodFallback

/-- The fields of a parsed exercise-analysis object. -/
structure RawExercise where
  caloriesBurned : JsVal
  exerciseType : JsVal
  intensity : JsVal
  confidence : JsVal
  breakdown : List String
  recommendations : Option (List String)
deriving DecidableEq

/-- The validation of `analyzeExerciseDescription`: `caloriesBurned` numeric,
`exerciseType` and `intensity` within their fixed enum lists. -/
def exerciseValid (a : RawExercise) : Bool :=
  a.caloriesBurned.isNumber
    && a.exerciseType.isStringIn ["cardio", "strength", "flexibility", "sports", "other"]
    && a.intensity.isStringIn ["light", "moderate", "vigorous", "high"]

/-- The fallback object of `analyzeExerciseDescription`'s `catch` block:
`caloriesBurned: duration ? Math.round(duration * 5) : 200` — it depends on
the `duration` argument (`undefined`/`null` ↦ `none`; `0` is falsy) — while
the remaining fields are fixed. -/
def exerciseFallback (duration : Option ℚ) : RawExercise :=
  { caloriesBurned :=
      .num (match duration with
            | some d => if d == 0 then 200 else ((jsRound (d * 5) : ℤ) : ℚ)
            | none => 200),
    exerciseType := .str "other", intensity := .str "moderate",
    confidence := .num 50,
    breakdown := ["Unable to analyze - using estimated values"],
    recommendations := none }

/-- `analyzeExerciseDescription` (`src/lib/gemini.ts`): failure paths yield
`exerciseFallback duration`; a validated parse is returned as-is. -/
def analyzeExerciseDescription (o : CallOutcome RawExercise) (duration : Option ℚ) :
    RawExercise :=
  match o with
  | .parsed a => if exerciseValid a then a else exerciseFallback duration
  | _ => exerciseFallback duration

/-! ## Daily totals (`src/pages/Dashboard.tsx`)

The Dashboard computes `consumed = foodLogs.reduce((sum, log) => sum +
log.calories, 0)` and `burned = exerciseLogs.reduce((sum, log) => sum +
log.calories_burned, 0)`; the ExerciseLog page's footer total is the same
`reduce` over `calories_burned`. -/

/-- A food-log row, restricted to the fields the totals read. -/
structure FoodLogEntry where
  description : String
  calories : ℚ
deriving DecidableEq

/-- An exercise-log row, restricted to the fields the totals read. -/
structure ExerciseLogEntry where
  description : String
  duration_minutes : ℚ
  calories_burned : ℚ
deriving DecidableEq

/-- `foodLogs.reduce((sum, log) => sum + log.calories, 0)`. -/
def consumedTotal (foodLogs : List FoodLogEntry) : ℚ :=
  foodLogs.foldl (fun sum log => sum + log.calories) 0

/-- `exerciseLogs.reduce((sum, log) => sum + log.calories_burned, 0)`,
used both on the Dashboard and in the ExerciseLog footer. -/
def burnedTotal (exerciseLogs : List ExerciseLogEntry) : ℚ :=
  exerciseLogs.foldl (fun sum log => sum + log.calories_burned) 0

/-! ## Helper lemmas -/

/-- `Math.round` commutes with adding an integer constant. -/
theorem jsRound_add_int (q : ℚ) (k : ℤ) : jsRound (q + k) = jsRound q + k := by
  unfold jsRound
  rw [add_right_comm, Int.floor_add_int]

/-- `Math.round` commutes with subtracting an integer constant. -/
theorem jsRound_sub_int (q : ℚ) (k : ℤ) : jsRound (q - k) = jsRound q - k := by
  unfold jsRound
  rw [sub_add_eq_add_sub, Int.floor_sub_int]

/-- Specialisation to the −500 calorie deficit, with the literal on the ℚ
side. -/
theorem jsRound_sub_500 (q : ℚ) : jsRound (q - 500) = jsRound q - 500 := by
  have h := jsRound_sub_int q 500
  push_cast at h
  exact h

/-- Specialisation to the +500 calorie surplus, with the literal on the ℚ
side. -/
theorem jsRound_add_500 (q : ℚ) : jsRound (q + 500) = jsRound q + 500 := by
  have h := jsRound_add_int q 500
  push_cast at h
  exact h

/-- A left fold accumulating `f` over a list starting from `s` is `s` plus
the sum of the mapped list. -/
theorem foldl_add_map_sum {α : Type} (f : α → ℚ) (l : List α) (s : ℚ) :
    l.foldl (fun acc x => acc + f x) s = s + (l.map f).sum := by
  induction l generalizing s with
  | nil => simp
  | cons x xs ih =>
    simp only [List.foldl_cons, List.map_cons, List.sum_cons, ih]
    ring

/-- The two activity tables agree wherever the utils table does not fall
through to its default on `"high"`. -/
theorem utils_spec_multiplier_eq (al : String) (h : al ≠ "high") :
    utilsActivityMultiplier al = specActivityMultiplier al := by
  unfold utilsActivityMultiplier specActivityMultiplier
  by_cases h1 : al = "sedentary"
  · subst h1; simp
  by_cases h2 : al = "light"
  · subst h2; simp
  by_cases h3 : al = "moderate"
  · subst h3; simp
  by_cases h4 : al = "active"
  · subst h4; simp
  by_cases h5 : al = "very_active"
  · subst h5; simp
  simp [h, h1, h2, h3, h4, h5]

/-! ## Claims -/

/-- C2: `calculateNutrientGoals` never throws (it is a total function of its
input), and whenever any of the six required fields is absent it returns
exactly the zero record `{tdee:0, proteinGoal:0, carbsGoal:0, fatGoal:0}`. -/
theorem calculateNutrientGoals_absent_field_zero (u : UserProfile)
    (h : u.age = none ∨ u.gender = none ∨ u.height = none ∨ u.weight = none ∨
      u.activity_level = none ∨ u.fitness_goal = none) :
    calculateNutrientGoals u = { tdee := 0, proteinGoal := 0, carbsGoal := 0, fatGoal := 0 } := by
  rcases h with h | h | h | h | h | h <;>
    simp [calculateNutrientGoals, numFalsy, strFalsy, h]

/-- Witness for C2: a profile missing only its age yields the zero record. -/
theorem calculateNutrientGoals_absent_field_zero_witness :
    calculateNutrientGoals
      ⟨none, some "male", some 180, some 80, some "moderate", some "lose_weight"⟩
      = { tdee := 0, proteinGoal := 0, carbsGoal := 0, fatGoal := 0 } :=
  calculateNutrientGoals_absent_field_zero _ (Or.inl rfl)

/-- C9: `calculateNutrientGoals` treats any falsy required field as absent:
a field that is `undefined`/`null` (`none`), the number `0`, or the empty
string forces the zero record. -/
theorem calculateNutrientGoals_falsy_field_zero (u : UserProfile)
    (h : u.age = none ∨ u.age = some 0 ∨ u.gender = none ∨ u.gender = some "" ∨
      u.height = none ∨ u.height = some 0 ∨ u.weight = none ∨ u.weight = some 0 ∨
      u.activity_level = none ∨ u.activity_level = some "" ∨
      u.fitness_goal = none ∨ u.fitness_goal = some "") :
    calculateNutrientGoals u = { tdee := 0, proteinGoal := 0, carbsGoal := 0, fatGoal := 0 } := by
  rcases h with h | h | h | h | h | h | h | h | h | h | h | h <;>
    simp [calculateNutrientGoals, numFalsy, strFalsy, h]

/-- Witness for C9: age 0 and weight 0 each yield the zero record, not a
computed goal. -/
theorem calculateNutrientGoals_falsy_field_zero_witness :
    calculateNutrientGoals
      ⟨some 0, some "male", some 180, some 80, some "moderate", some "lose_weight"⟩
      = { tdee := 0, proteinGoal := 0, carbsGoal := 0, fatGoal := 0 } ∧
    calculateNutrientGoals
      ⟨some 25, some "male", some 180, some 0, some "moderate", some "lose_weight"⟩
      = { tdee := 0, proteinGoal := 0, carbsGoal := 0, fatGoal := 0 } :=
  ⟨calculateNutrientGoals_falsy_field_zero _ (Or.inr (Or.inl rfl)),
   calculateNutrientGoals_falsy_field_zero _
     (Or.inr (Or.inr (Or.inr (Or.inr (Or.inr (Or.inr (Or.inr (Or.inl rfl))))))))⟩

/-- C5: in both calorie-goal computations the goal adjustment is
`lose_weight` → −500, `gain_weight`/`build_muscle` → +500, and any other
goal (including `maintain_weight`) leaves the value unchanged. -/
theorem goal_adjustment_values :
    (∀ t : ℚ, utilsApplyFitnessGoal "lose_weight" t = t - 500 ∧
      utilsApplyFitnessGoal "gain_weight" t = t + 500 ∧
      utilsApplyFitnessGoal "build_muscle" t = t + 500) ∧
    (∀ fg : String, fg ≠ "lose_weight" → fg ≠ "gain_weight" → fg ≠ "build_muscle" →
      ∀ t : ℚ, utilsApplyFitnessGoal fg t = t) ∧
    (∀ c : ℤ, dashboardApplyFitnessGoal "lose_weight" c = c - 500 ∧
      dashboardApplyFitnessGoal "gain_weight" c = c + 500 ∧
      dashboardApplyFitnessGoal "build_muscle" c = c + 500) ∧
    (∀ fg : String, fg ≠ "lose_weight" → fg ≠ "gain_weight" → fg ≠ "build_muscle" →
      ∀ c : ℤ, dashboardApplyFitnessGoal fg c = c) := by
  refine ⟨fun t => ⟨?_, ?_, ?_⟩, fun fg h1 h2 h3 t => ?_,
    fun c => ⟨?_, ?_, ?_⟩, fun fg h1 h2 h3 c => ?_⟩ <;>
    simp [utilsApplyFitnessGoal, dashboardApplyFitnessGoal, *]

/-- Witness for C5: `maintain_weight` (and the unmapped `improve_fitness`)
leave the value unchanged in both computations. -/
theorem goal_adjustment_values_witness :
    utilsApplyFitnessGoal "maintain_weight" 2000 = 2000 ∧
    utilsApplyFitnessGoal "improve_fitness" 2000 = 2000 ∧
    dashboardApplyFitnessGoal "maintain_weight" 2000 = 2000 ∧
    utilsApplyFitnessGoal "lose_weight" 2000 = 1500 :=
  ⟨goal_adjustment_values.2.1 "maintain_weight" (by decide) (by decide) (by decide) 2000,
   goal_adjustment_values.2.1 "improve_fitness" (by decide) (by decide) (by decide) 2000,
   goal_adjustment_values.2.2.2 "maintain_weight" (by decide) (by decide) (by decide) 2000,
   by rw [(goal_adjustment_values.1 2000).1]; norm_num⟩

/-- Counterexample for C3: there is no single table giving activity level
`"high"` (or `"active"`) the multiplier 1.725 everywhere — the utils table
sends `"high"` to its 1.2 default, and the Dashboard table sends `"active"`
to its 1.2 default. -/
theorem activityMultiplier_counterexample :
    utilsActivityMultiplier "high" ≠ 1.725 ∧ dashboardActivityMultiplier "active" ≠ 1.725 := by
  constructor <;>
    · simp only [utilsActivityMultiplier, dashboardActivityMultiplier,
        String.reduceEq, reduceIte]
      norm_num

/-- C3 (amended): the two computations use two divergent fixed tables that
agree on `sedentary`/`light`/`moderate`/`very_active` and on the 1.2 default,
with the entry values light→1.375, moderate→1.55, very_active→1.9 and
sedentary falling to the 1.2 default in both; but the utils table keys 1.725
by `"active"` while the Dashboard table keys it by `"high"`. -/
theorem activityMultiplier_tables (al : String) :
    (al = "sedentary" ∨ al = "light" ∨ al = "moderate" ∨ al = "very_active" →
      utilsActivityMultiplier al = dashboardActivityMultiplier al) ∧
    utilsActivityMultiplier "light" = 1.375 ∧
    utilsActivityMultiplier "moderate" = 1.55 ∧
    utilsActivityMultiplier "active" = 1.725 ∧
    utilsActivityMultiplier "very_active" = 1.9 ∧
    dashboardActivityMultiplier "light" = 1.375 ∧
    dashboardActivityMultiplier "moderate" = 1.55 ∧
    dashboardActivityMultiplier "high" = 1.725 ∧
    dashboardActivityMultiplier "very_active" = 1.9 ∧
    (al ≠ "light" → al ≠ "moderate" → al ≠ "active" → al ≠ "very_active" →
      utilsActivityMultiplier al = 1.2) ∧
    (al ≠ "light" → al ≠ "moderate" → al ≠ "high" → al ≠ "very_active" →
      dashboardActivityMultiplier al = 1.2) := by
  refine ⟨fun h => ?_, by simp [utilsActivityMultiplier], by simp [utilsActivityMultiplier],
    by simp [utilsActivityMultiplier], by simp [utilsActivityMultiplier],
    by simp [dashboardActivityMultiplier], by simp [dashboardActivityMultiplier],
    by simp [dashboardActivityMultiplier], by simp [dashboardActivityMultiplier],
    fun h1 h2 h3 h4 => ?_, fun h1 h2 h3 h4 => ?_⟩
  · rcases h with h | h | h | h <;> subst h <;>
      simp [utilsActivityMultiplier, dashboardActivityMultiplier]
  · simp [utilsActivityMultiplier, h1, h2, h3, h4]
  · simp [dashboardActivityMultiplier, h1, h2, h3, h4]

/-- Witness for C3 (amended): the tables agree at `"sedentary"`, each maps
`"light"` to 1.375, and an arbitrary unmatched level falls to 1.2 in both. -/
theorem activityMultiplier_tables_witness :
    utilsActivityMultiplier "sedentary" = dashboardActivityMultiplier "sedentary" ∧
    utilsActivityMultiplier "light" = 1.375 ∧
    dashboardActivityMultiplier "light" = 1.375 ∧
    utilsActivityMultiplier "extreme" = 1.2 ∧
    dashboardActivityMultiplier "extreme" = 1.2 :=
  ⟨(activityMultiplier_tables "sedentary").1 (Or.inl rfl),
   (activityMultiplier_tables "light").2.1,
   (activityMultiplier_tables "light").2.2.2.2.2.1,
   (activityMultiplier_tables "extreme").2.2.2.2.2.2.2.2.2.1
     (by decide) (by decide) (by decide) (by decide),
   (activityMultiplier_tables "extreme").2.2.2.2.2.2.2.2.2.2
     (by decide) (by decide) (by decide) (by decide)⟩

/-- Counterexample for C4: the profile-save BMR is not Mifflin-St Jeor for
every non-male gender — for gender `"other"` the Dashboard computation
leaves BMR at its initialiser 0 instead of applying the −161 formula. -/
theorem dashboardBMR_other_counterexample :
    dashboardBMR "other" 25 180 80 ≠ 10 * 80 + 6.25 * 180 - 5 * 25 - 161 := by
  simp only [dashboardBMR, String.reduceEq, reduceIte]
  norm_num

/-- C4 (amended): the goal calculator's BMR is Mifflin-St Jeor with `male` →
+5 and every other gender → −161; the profile-save BMR agrees on `male` and
`female` but yields 0 for any other gender. -/
theorem bmr_formulas (g : String) (age height weight : ℚ) :
    (g = "male" → utilsBMR g age height weight
      = 10 * weight + 6.25 * height - 5 * age + 5) ∧
    (g ≠ "male" → utilsBMR g age height weight
      = 10 * weight + 6.25 * height - 5 * age - 161) ∧
    (g = "male" → dashboardBMR g age height weight
      = 10 * weight + 6.25 * height - 5 * age + 5) ∧
    (g = "female" → dashboardBMR g age height weight
      = 10 * weight + 6.25 * height - 5 * age - 161) ∧
    (g ≠ "male" → g ≠ "female" → dashboardBMR g age height weight = 0) := by
  refine ⟨fun h => ?_, fun h => ?_, fun h => ?_, fun h => ?_, fun h1 h2 => ?_⟩ <;>
    simp [utilsBMR, dashboardBMR, *]

/-- Witness for C4 (amended): at gender `"other"`, age 30, height 170,
weight 70 the two BMR computations disagree: −161 formula vs. 0. -/
theorem bmr_formulas_witness :
    utilsBMR "other" 30 170 70 = 10 * 70 + 6.25 * 170 - 5 * 30 - 161 ∧
    dashboardBMR "other" 30 170 70 = 0 ∧
    utilsBMR "male" 30 170 70 = 10 * 70 + 6.25 * 170 - 5 * 30 + 5 :=
  ⟨(bmr_formulas "other" 30 170 70).2.1 (by decide),
   (bmr_formulas "other" 30 170 70).2.2.2.2 (by decide) (by decide),
   (bmr_formulas "male" 30 170 70).1 rfl⟩

/-- C6: whenever the external call errors, no JSON object is extractable,
parsing fails, or any of the required fields `calories`/`protein`/`carbs`/
`fat` is absent or non-numeric, `analyzeFoodDescription` returns exactly the
fixed fallback and never propagates the failure. -/
theorem analyzeFoodDescription_fallback_on_failure (o : CallOutcome RawFood)
    (h : ∀ a, o = CallOutcome.parsed a → foodValid a = false) :
    analyzeFoodDescription o = foodFallback := by
  cases o with
  | parsed a => simp [analyzeFoodDescription, h a rfl]
  | callError => rfl
  | noJsonMatch => rfl
  | parseError => rfl

/-- Witness for C6: a call error, a response with no JSON, and a parsed
object whose `calories` is a string all yield the fixed fallback. -/
theorem analyzeFoodDescription_fallback_on_failure_witness :
    analyzeFoodDescription CallOutcome.callError = foodFallback ∧
    analyzeFoodDescription CallOutcome.noJsonMatch = foodFallback ∧
    analyzeFoodDescription
      (CallOutcome.parsed
        ⟨.str "many", .num 15, .num 30, .num 10, .absent, .absent, .absent, .num 80, []⟩)
      = foodFallback :=
  ⟨analyzeFoodDescription_fallback_on_failure _ (fun a ha => by cases ha),
   analyzeFoodDescription_fallback_on_failure _ (fun a ha => by cases ha),
   analyzeFoodDescription_fallback_on_failure _ (fun a ha => by cases ha; rfl)⟩

/-- Counterexample for C7: the exercise fallback is not a single fixed value
set — it varies with the call's `duration` argument (150 calories for a
30-minute failure vs. 200 with no duration). -/
theorem analyzeExerciseDescription_fallback_varies :
    analyzeExerciseDescription CallOutcome.callError (some 30)
      ≠ analyzeExerciseDescription CallOutcome.callError none := by
  simp only [analyzeExerciseDescription, exerciseFallback, ne_eq,
    RawExercise.mk.injEq, beq_iff_eq]
  intro h
  have h1 := h.1
  rw [if_neg (by norm_num)] at h1
  have h2 : ((jsRound ((30 : ℚ) * 5) : ℤ) : ℚ) = 150 := by
    norm_num [jsRound]
  rw [h2] at h1
  exact absurd (JsVal.num.inj h1) (by norm_num)

/-- C7 (amended): on any failure (call error, unextractable/unparsable JSON,
or failed validation of `caloriesBurned`/`exerciseType`/`intensity`),
`analyzeExerciseDescription` substitutes the documented fallback whose
`exerciseType`/`intensity`/`confidence`/`breakdown` fields are fixed
(`other`, `moderate`, 50, one explanatory line) but whose `caloriesBurned`
varies with the `duration` argument: `round(duration × 5)` when `duration`
is truthy, 200 otherwise. -/
theorem analyzeExerciseDescription_fallback_on_failure
    (o : CallOutcome RawExercise) (duration : Option ℚ)
    (h : ∀ a, o = CallOutcome.parsed a → exerciseValid a = false) :
    analyzeExerciseDescription o duration = exerciseFallback duration := by
  cases o with
  | parsed a => simp [analyzeExerciseDescription, h a rfl]
  | callError => rfl
  | noJsonMatch => rfl
  | parseError => rfl

/-- Witness for C7 (amended): a call error with a 30-minute duration and a
parsed object with an out-of-enum intensity both give the duration-dependent
fallback. -/
theorem analyzeExerciseDescription_fallback_on_failure_witness :
    analyzeExerciseDescription CallOutcome.callError (some 30) = exerciseFallback (some 30) ∧
    analyzeExerciseDescription
      (CallOutcome.parsed
        ⟨.num 300, .str "cardio", .str "extreme", .num 90, [], none⟩) none
      = exerciseFallback none :=
  ⟨analyzeExerciseDescription_fallback_on_failure _ _ (fun a ha => by cases ha),
   analyzeExerciseDescription_fallback_on_failure _ _ (fun a ha => by cases ha; rfl)⟩

/-- C8: the displayed daily totals are the sums of the fetched entries'
calorie fields — `reduce`ing from 0 equals summing the mapped list, so
recomputing over the same lists always yields the same values. -/
theorem daily_totals_are_sums (foodLogs : List FoodLogEntry)
    (exerciseLogs : List ExerciseLogEntry) :
    consumedTotal foodLogs = (foodLogs.map fun log => log.calories).sum ∧
    burnedTotal exerciseLogs = (exerciseLogs.map fun log => log.calories_burned).sum := by
  constructor
  · simpa [consumedTotal] using
      foldl_add_map_sum (fun log : FoodLogEntry => log.calories) foodLogs 0
  · simpa [burnedTotal] using
      foldl_add_map_sum (fun log : ExerciseLogEntry => log.calories_burned) exerciseLogs 0

/-- Counterexample for C1: on the complete profile (25, male, 180, 80,
activity `"high"`, `lose_weight`) the code does not match the §4.1 formulas —
§4.1 sends "active/high" to 1.725 while the code's `switch` has no `"high"`
case and falls to the 1.2 default (tdee 1666 instead of 2614). -/
theorem calculateNutrientGoals_spec_counterexample :
    calculateNutrientGoals
      ⟨some 25, some "male", some 180, some 80, some "high", some "lose_weight"⟩
      ≠ specGoalCalculator "male" "high" "lose_weight" 25 180 80 := by
  simp only [calculateNutrientGoals, specGoalCalculator, utilsBMR, utilsActivityMultiplier,
    specActivityMultiplier, specApplyFitnessGoal, utilsApplyFitnessGoal, numFalsy, strFalsy,
    Option.getD_some, String.reduceEq, reduceIte, beq_iff_eq, Bool.or_eq_true, ne_eq,
    NutrientGoals.mk.injEq, jsRound]
  norm_num

/-- C1 (amended): for every complete profile (all six fields present and
non-falsy) whose activity level is not the string `"high"`,
`calculateNutrientGoals` returns exactly the §4.1 result: tdee =
round(bmr × multiplier ± goal adjustment), proteinGoal = round(2·kg),
fatGoal = round(0.9·kg), carbsGoal = round((adjusted TDEE − 4·protein −
9·fat)/4); in particular the two example profiles return
{2298,160,252,72} and {1584,120,155,54}. -/
theorem calculateNutrientGoals_matches_spec
    (age height weight : ℚ) (gender al fg : String)
    (ha : age ≠ 0) (hh : height ≠ 0) (hw : weight ≠ 0)
    (hg : gender ≠ "") (hal : al ≠ "") (hfg : fg ≠ "") (hhigh : al ≠ "high") :
    calculateNutrientGoals ⟨some age, some gender, some height, some weight, some al, some fg⟩
      = specGoalCalculator gender al fg age height weight := by
  have hmult := utils_spec_multiplier_eq al hhigh
  have hguard : (numFalsy (some age) || strFalsy (some gender) || numFalsy (some height)
      || numFalsy (some weight) || strFalsy (some al) || strFalsy (some fg)) = false := by
    simp [numFalsy, strFalsy, ha, hh, hw, hg, hal, hfg]
  simp only [calculateNutrientGoals, hguard, Bool.false_eq_true, if_false,
    Option.getD_some, specGoalCalculator, utilsBMR, utilsApplyFitnessGoal,
    specApplyFitnessGoal, hmult]

/-- Witness for C1 (amended): the two §8 example profiles, with the exact
record values the claim lists. -/
theorem calculateNutrientGoals_matches_spec_witness :
    calculateNutrientGoals
      ⟨some 25, some "male", some 180, some 80, some "moderate", some "lose_weight"⟩
      = specGoalCalculator "male" "moderate" "lose_weight" 25 180 80 ∧
    calculateNutrientGoals
      ⟨some 25, some "male", some 180, some 80, some "moderate", some "lose_weight"⟩
      = { tdee := 2298, proteinGoal := 160, carbsGoal := 252, fatGoal := 72 } ∧
    calculateNutrientGoals
      ⟨some 30, some "female", some 165, some 60, some "sedentary", some "maintain_weight"⟩
      = { tdee := 1584, proteinGoal := 120, carbsGoal := 155, fatGoal := 54 } :=
  ⟨calculateNutrientGoals_matches_spec 25 180 80 "male" "moderate" "lose_weight"
     (by norm_num) (by norm_num) (by norm_num) (by decide) (by decide) (by decide) (by decide),
   by
     simp only [calculateNutrientGoals, numFalsy, strFalsy, utilsBMR, utilsActivityMultiplier,
       utilsApplyFitnessGoal, Option.getD_some, String.reduceEq, reduceIte, beq_iff_eq,
       NutrientGoals.mk.injEq, Bool.or_eq_true, jsRound]
     norm_num,
   by
     simp only [calculateNutrientGoals, numFalsy, strFalsy, utilsBMR, utilsActivityMultiplier,
       utilsApplyFitnessGoal, Option.getD_some, String.reduceEq, reduceIte, beq_iff_eq,
       NutrientGoals.mk.injEq, Bool.or_eq_true, jsRound]
     norm_num⟩

/-- C10: on the common, typed domain — gender `male`/`female`, activity one
of `sedentary`/`light`/`moderate`/`very_active`, goal one of the four enum
values, all fields non-falsy — the goal calculator's tdee equals the Profile
page's `daily_calorie_goal`: rounding commutes with the integer ±500
adjustment. -/
theorem calculateNutrientGoals_tdee_refines_dashboard
    (age height weight : ℚ) (gender al fg : String)
    (hg : gender = "male" ∨ gender = "female")
    (hal : al = "sedentary" ∨ al = "light" ∨ al = "moderate" ∨ al = "very_active")
    (hfg : fg = "lose_weight" ∨ fg = "maintain_weight" ∨ fg = "gain_weight"
      ∨ fg = "build_muscle")
    (ha : age ≠ 0) (hh : height ≠ 0) (hw : weight ≠ 0) :
    (calculateNutrientGoals
      ⟨some age, some gender, some height, some weight, some al, some fg⟩).tdee
      = dashboardDailyCalorieGoal gender al fg age height weight := by
  rcases hg with rfl | rfl <;> rcases hal with rfl | rfl | rfl | rfl <;>
    rcases hfg with rfl | rfl | rfl | rfl <;>
    simp [calculateNutrientGoals, dashboardDailyCalorieGoal, utilsBMR, dashboardBMR,
      utilsActivityMultiplier, dashboardActivityMultiplier, utilsApplyFitnessGoal,
      dashboardApplyFitnessGoal, numFalsy, strFalsy, ha, hh, hw,
      jsRound_sub_500, jsRound_add_500]

/-- Witness for C10: the male example profile gives tdee 2298 through both
computations. -/
theorem calculateNutrientGoals_tdee_refines_dashboard_witness :
    (calculateNutrientGoals
      ⟨some 25, some "male", some 180, some 80, some "moderate", some "lose_weight"⟩).tdee
      = dashboardDailyCalorieGoal "male" "moderate" "lose_weight" 25 180 80 :=
  calculateNutrientGoals_tdee_refines_dashboard 25 180 80 "male" "moderate" "lose_weight"
    (Or.inl rfl) (Or.inr (Or.inr (Or.inl rfl))) (Or.inl rfl)
    (by norm_num) (by norm_num) (by norm_num)
